import Mathlib

/-!
Shallow embedding of the WebAlumni report engine (src/app.py).

The Python code operates on pandas dataframes of string cells.  We embed
each cell that a claim touches as either a plain `String` or the `Cell`
type below (which distinguishes null / non-string / string values, as the
Python code does via `pd.isna` and `isinstance(str)`).  Pure string
helpers (`strip`, `upper`, `lower`, `capitalize`, `replace`, substring
and word-boundary search) are modelled character-list by character-list,
matching Python semantics for the ASCII data the program handles.
-/

namespace WebAlumni

/-- Python `str.isspace` characters relevant to `str.strip()`. -/
def pySpace (c : Char) : Bool :=
  c = ' ' || c = '\t' || c = '\n' || c = '\r' || c = Char.ofNat 11 || c = Char.ofNat 12

/-- Python `str.strip()`. -/
def pyStrip (s : String) : String :=
  String.mk (((s.data.dropWhile pySpace).reverse.dropWhile pySpace).reverse)

/-- Python `str.upper()` (ASCII). -/
def pyUpper (s : String) : String :=
  String.mk (s.data.map Char.toUpper)

/-- Python `str.lower()` (ASCII). -/
def pyLower (s : String) : String :=
  String.mk (s.data.map Char.toLower)

/-- Python `str.capitalize()`: first character upper-cased, the rest lower-cased. -/
def pyCapitalize (s : String) : String :=
  match s.data with
  | [] => ""
  | c :: cs => String.mk (Char.toUpper c :: cs.map Char.toLower)

/-- `lpre p s` : the list `p` is a prefix of the list `s` (executable). -/
def lpre : List Char → List Char → Bool
  | [], _ => true
  | _ :: _, [] => false
  | c :: p, d :: s => c = d && lpre p s

/-- `containsSub pat s` : `pat` occurs as a contiguous sublist of `s`
(Python `pat in s` for strings). -/
def containsSub (pat : List Char) : List Char → Bool
  | [] => lpre pat []
  | c :: rest => lpre pat (c :: rest) || containsSub pat rest

/-- Python `s in t` for strings: `sContains t s` means `s` occurs inside `t`. -/
def sContains (t pat : String) : Bool := containsSub pat.data t.data

/-- Remove every (left-to-right, non-overlapping) occurrence of the
non-empty pattern `p :: ps`, as Python `str.replace(pat, "")` does.
Structural recursion on a fuel argument (initialised to the list length,
which suffices because every step shortens the list). -/
def removeAllAux (p : Char) (ps : List Char) : Nat → List Char → List Char
  | _, [] => []
  | 0, l => l
  | fuel + 1, c :: rest =>
    if lpre (p :: ps) (c :: rest) then removeAllAux p ps fuel (rest.drop ps.length)
    else c :: removeAllAux p ps fuel rest

/-- Python `s.replace(pat, "")` (only used with non-empty patterns). -/
def pyRemove (s pat : String) : String :=
  match pat.data with
  | [] => s
  | p :: ps => String.mk (removeAllAux p ps s.data.length s.data)

/-- A dataframe cell: null (`None`/`NaN`), a non-string value, or a string. -/
inductive Cell where
  | null
  | nonstring
  | str (s : String)
deriving DecidableEq

/-- `clean_status` (app.py line 82) on a string cell:
`status.strip().lower().capitalize()`.  (On non-string cells the Python
function returns `"Unknown"`; the report paths only ever feed it strings
because `load_excel_data` coerces the column with `astype(str)`.) -/
def clean_status (s : String) : String :=
  pyCapitalize (pyLower (pyStrip s))

/-- The empty/placeholder pattern table of `normalize_company_name`
(app.py lines 112-134), in source order. -/
def emptyPatterns : List (String × List String) :=
  [ ("COMPLETELY EMPTY", ["", "-", ".", " ", "...", "*", "#", "//"])
  , ("PLACEHOLDER",
      ["#N/A", "N/A", "NA", "N.A.", "N/A.", "NONE", "NIL",
       "NOT APPLICABLE", "NOT AVAILABLE", "UNKNOWN"])
  , ("CONFIDENTIAL",
      ["CONFIDENTIAL", "CONFIDENTIAL GOVERNMENT", "GOVERNMENT",
       "GOVERNMENT SECTOR", "CONFIDENTIAL (STEALTH MODE)",
       "CONFIDENTIAL ( STEALTH MODE )", "CONFIDENTIAL COMPANY",
       "CANNOT DISCLOSE", "UNDISCLOSED"])
  , ("OTHERS",
      ["OTHERS", "OTHER", "MISC", "MISCELLANEOUS", "TBD",
       "TO BE DETERMINED", "PENDING"])
  , ("NOT WORKING",
      ["NOT WORKING", "UNEMPLOYED", "NO JOB", "NO WORK",
       "LOOKING FOR JOB", "SEEKING EMPLOYMENT"]) ]

/-- First category whose pattern list contains `name` (dict iteration order). -/
def findCategory (name : String) : Option String :=
  (emptyPatterns.find? (fun cp => decide (name ∈ cp.2))).map (fun cp => cp.1)

/-- The `company_aliases` dict of `normalize_company_name`
(app.py lines 142-192), in insertion order. -/
def company_aliases : List (String × String) :=
  [ ("SNB", "SAUDI NATIONAL BANK")
  , ("SAUDI NATIONAL BANK", "SAUDI NATIONAL BANK")
  , ("SNB CAPITAL", "SAUDI NATIONAL BANK")
  , ("THE SAUDI NATIONAL BANK", "SAUDI NATIONAL BANK")
  , ("NCB", "SAUDI NATIONAL BANK")
  , ("BSF", "BANQUE SAUDI FRANSI")
  , ("BANQUE SAUDI FRANSI", "BANQUE SAUDI FRANSI")
  , ("BANQUE SAUDI FRANSI CAPITAL", "BANQUE SAUDI FRANSI")
  , ("FRANSI CAPITAL", "BANQUE SAUDI FRANSI")
  , ("SAB", "SAUDI BRITISH BANK")
  , ("SABB", "SAUDI BRITISH BANK")
  , ("BANK SAB", "SAUDI BRITISH BANK")
  , ("PIF", "PUBLIC INVESTMENT FUND")
  , ("PUBLIC INVESTMENT FUND - PIF", "PUBLIC INVESTMENT FUND")
  , ("SAMA", "SAUDI CENTRAL BANK")
  , ("SAUDI CENTRAL BANK - SAMA", "SAUDI CENTRAL BANK")
  , ("SIDF", "SAUDI INDUSTRIAL DEVELOPMENT FUND")
  , ("SAUDI INDUSTRIAL DEVELOPMENT FUND - SIDF", "SAUDI INDUSTRIAL DEVELOPMENT FUND")
  , ("BCG", "BOSTON CONSULTING GROUP")
  , ("BOSTON CONSULTING GROUP (BCG)", "BOSTON CONSULTING GROUP")
  , ("EY", "ERNST & YOUNG")
  , ("ERNST & YOUNG (EY)", "ERNST & YOUNG")
  , ("PWC", "PRICEWATERHOUSECOOPERS")
  , ("KFSH&RC", "KING FAISAL SPECIALIST HOSPITAL & RESEARCH CENTER")
  , ("KFSHRC", "KING FAISAL SPECIALIST HOSPITAL & RESEARCH CENTER")
  , ("KFSH", "KING FAISAL SPECIALIST HOSPITAL & RESEARCH CENTER")
  , ("KING FAISAL SPECIALIST HOSPITAL", "KING FAISAL SPECIALIST HOSPITAL & RESEARCH CENTER")
  , ("HABIB", "DR. SULAIMAN AL HABIB MEDICAL GROUP")
  , ("DR. SULAIMAN AL HABIB", "DR. SULAIMAN AL HABIB MEDICAL GROUP")
  , ("STC", "SAUDI TELECOM COMPANY")
  , ("SAUDI TELECOM", "SAUDI TELECOM COMPANY")
  , ("HPE", "HEWLETT PACKARD ENTERPRISE")
  , ("HEWLETT PACKARD ENTERPRISE - HPE", "HEWLETT PACKARD ENTERPRISE")
  , ("ARAMCO", "SAUDI ARAMCO")
  , ("SAUDI ARAMCO", "SAUDI ARAMCO")
  , ("SABIC", "SAUDI BASIC INDUSTRIES CORPORATION")
  , ("MINISTRY OF HEALTH", "MINISTRY OF HEALTH")
  , ("MINISTRY OF HEALTH ", "MINISTRY OF HEALTH") ]

/-- Exact-key lookup in `company_aliases`. -/
def aliasLookup (name : String) : Option String :=
  (company_aliases.find? (fun kv => decide (kv.1 = name))).map (fun kv => kv.2)

/-- The `remove_words` list (app.py lines 199-203), in source order. -/
def remove_words : List String :=
  ["LTD", "LIMITED", "CORPORATION", "CORP", "INC", "LLC", "CO",
   "COMPANY", "GROUP", "HOLDING", "HOLDINGS", "INTERNATIONAL",
   "SAUDI ARABIA", "KSA", "MIDDLE EAST"]

/-- The suffix-stripping loop: `name = name.replace(f" {word}", "")`
for each word in order. -/
def stripWords (name : String) : String :=
  remove_words.foldl (fun n w => pyRemove n (" " ++ w)) name

/-- The string pipeline of `normalize_company_name` (app.py lines 97-214)
after the null / non-string guards. -/
def normStr (s : String) : String :=
  let name := pyUpper (pyStrip s)
  match findCategory name with
  | some cat => "EMPTY (" ++ cat ++ ")"
  | none =>
    match aliasLookup name with
    | some canonical => canonical
    | none =>
      let name2 := stripWords name
      if sContains name2 "NATIONAL GUARD" && sContains name2 "HEALTH" then
        "MINISTRY OF NATIONAL GUARD HEALTH AFFAIRS"
      else if sContains name2 "KING FAHAD MEDICAL" then
        "KING FAHAD MEDICAL CITY"
      else pyStrip name2

/-- `normalize_company_name` (app.py lines 97-214). -/
def normalize_company_name : Cell → String
  | .null => "EMPTY (NULL)"
  | .nonstring => "EMPTY (INVALID TYPE)"
  | .str s => normStr s

/-! ### Job-title seniority classifier (`is_high_position`, app.py lines 241-324) -/

/-- A regex word character (`\w`) for the ASCII data the program handles. -/
def wordChar (c : Char) : Bool := c.isAlpha || c.isDigit || c = '_'

/-- The character after a match must not be a word character (or the string ends). -/
def headNonWord : List Char → Bool
  | [] => true
  | c :: _ => !wordChar c

/-- Scan `s` for an occurrence of `kw` with word boundaries on both sides
(`re.search(r"\b" + re.escape(kw) + r"\b", s)`; every keyword starts and
ends with a word character).  `prevOk` records whether the character before
the current position is absent or a non-word character. -/
def wbScan (kw : List Char) : Bool → List Char → Bool
  | _, [] => false
  | prevOk, c :: rest =>
    (prevOk && lpre kw (c :: rest) && headNonWord ((c :: rest).drop kw.length))
      || wbScan kw (!wordChar c) rest

/-- Whole-word (word-boundary) search of `kw` inside `s`. -/
def wordMatch (kw s : String) : Bool := wbScan kw.data true s.data

/-- The `high_position_mapping` dict (app.py lines 257-303), in insertion order. -/
def high_position_mapping : List (String × String) :=
  [ ("CEO", "CHIEF EXECUTIVE OFFICER")
  , ("CHIEF EXECUTIVE OFFICER", "CHIEF EXECUTIVE OFFICER")
  , ("PRESIDENT", "PRESIDENT")
  , ("CFO", "CHIEF FINANCIAL OFFICER")
  , ("CHIEF FINANCIAL OFFICER", "CHIEF FINANCIAL OFFICER")
  , ("CTO", "CHIEF TECHNOLOGY OFFICER")
  , ("CHIEF TECHNOLOGY OFFICER", "CHIEF TECHNOLOGY OFFICER")
  , ("CIO", "CHIEF INFORMATION OFFICER")
  , ("CHIEF INFORMATION OFFICER", "CHIEF INFORMATION OFFICER")
  , ("COO", "CHIEF OPERATING OFFICER")
  , ("CHIEF OPERATING OFFICER", "CHIEF OPERATING OFFICER")
  , ("CMO", "CHIEF MARKETING OFFICER")
  , ("CHIEF MARKETING OFFICER", "CHIEF MARKETING OFFICER")
  , ("CHIEF", "CHIEF")
  , ("DIRECTOR", "DIRECTOR")
  , ("EXECUTIVE DIRECTOR", "EXECUTIVE DIRECTOR")
  , ("MANAGING DIRECTOR", "MANAGING DIRECTOR")
  , ("BOARD MEMBER", "BOARD MEMBER")
  , ("VP", "VICE PRESIDENT")
  , ("VICE PRESIDENT", "VICE PRESIDENT")
  , ("SVP", "SENIOR VICE PRESIDENT")
  , ("SENIOR VICE PRESIDENT", "SENIOR VICE PRESIDENT")
  , ("EVP", "EXECUTIVE VICE PRESIDENT")
  , ("EXECUTIVE VICE PRESIDENT", "EXECUTIVE VICE PRESIDENT")
  , ("HEAD", "HEAD")
  , ("DEPARTMENT HEAD", "DEPARTMENT HEAD")
  , ("DIVISION HEAD", "DIVISION HEAD")
  , ("GENERAL MANAGER", "GENERAL MANAGER")
  , ("PARTNER", "PARTNER")
  , ("SENIOR MANAGER", "SENIOR MANAGER")
  , ("PRINCIPAL", "PRINCIPAL")
  , ("FOUNDER", "FOUNDER")
  , ("CO-FOUNDER", "CO-FOUNDER")
  , ("OWNER", "OWNER") ]

/-- The empty/placeholder values skipped by `is_high_position` (app.py line 253). -/
def placeholderPositions : List String :=
  ["-", "N/A", "NA", "NONE", "NOT APPLICABLE", "UNKNOWN"]

/-- The `leadership_context` word list (app.py line 318). -/
def leadershipContextWords : List String := ["OF", "DEPARTMENT", "DIVISION", "TEAM"]

/-- `any(context in position for context in leadership_context)`:
plain substring containment, not whole-word. -/
def hasLeadershipContext (position : String) : Bool :=
  leadershipContextWords.any (fun c => sContains position c)

/-- The keyword scan loop of `is_high_position` (app.py lines 310-322):
first word-boundary match wins, except that a matched keyword from
{HEAD, CHIEF, OWNER} *that is shorter than 5 characters* additionally
requires a leadership-context word; otherwise scanning continues. -/
def findHigh : List (String × String) → String → Option String
  | [], _ => none
  | (kw, norm) :: rest, position =>
    if wordMatch kw position then
      if (kw = "HEAD" ∨ kw = "CHIEF" ∨ kw = "OWNER") ∧ kw.length < 5 then
        if hasLeadershipContext position then some norm else findHigh rest position
      else some norm
    else findHigh rest position

/-- `is_high_position` (app.py lines 241-324). -/
def is_high_position : Cell → Option String
  | .null => none
  | .nonstring => none
  | .str s =>
    let position := pyUpper (pyStrip s)
    if position = "" ∨ position ∈ placeholderPositions then none
    else
      match (high_position_mapping.find? (fun kv => decide (kv.1 = position))).map
              (fun kv => kv.2) with
      | some v => some v
      | none => findHigh high_position_mapping position

/-! ### Data model: one roster row, one cached dataset

`load_excel_data` (app.py lines 414-571) fills and strips the required
columns, so the string fields below model the loaded values.  The
`Nationality` column is optional; `hasNationality` records whether the
uploaded file had it (rows of a dataset without the column have no
nationality value, and reading it raises a `KeyError` in pandas — the
field is simply ignored in that case). -/

structure Row where
  studentId : String
  college : String
  gradYear : String
  gender : String
  nationality : String
  currentStatus : String
  major : String
  workplace : Cell
  position : Cell
deriving DecidableEq

structure Dataset where
  rows : List Row
  hasNationality : Bool

/-- `str.startswith("G")` on a student identifier. -/
def sStarts (s pre : String) : Bool := lpre pre.data s.data

/-- College and graduation-term filters shared by every report path:
`df["_College"].isin(colleges)` and `df["_Year"].isin(years)`, where the
derived columns are the stripped `College` / `Year/Semester of Graduation`
values. -/
def collegeYearFilter (rows : List Row) (colleges years : List String) : List Row :=
  (rows.filter (fun r => decide (pyStrip r.college ∈ colleges))).filter
    (fun r => decide (pyStrip r.gradYear ∈ years))

/-- Degree filter: `bachelor` drops, `master` keeps, identifiers starting
with the graduate marker `"G"`; anything else is a no-op. -/
def degreeFilter (rows : List Row) (degree : String) : List Row :=
  if degree = "bachelor" then rows.filter (fun r => !sStarts r.studentId "G")
  else if degree = "master" then rows.filter (fun r => sStarts r.studentId "G")
  else rows

/-- Gender filter: case-insensitive trimmed match unless the option is "all". -/
def genderFilter (rows : List Row) (g : String) : List Row :=
  if pyLower g ≠ "all" then
    rows.filter (fun r => decide (pyLower (pyStrip r.gender) = pyLower g))
  else rows

/-- `df["Nationality"].str.strip() == "Saudi Arabia"`. -/
def saudiKeep (rows : List Row) : List Row :=
  rows.filter (fun r => decide (pyStrip r.nationality = "Saudi Arabia"))

/-- `df["Nationality"].str.strip() != "Saudi Arabia"`. -/
def nonSaudiKeep (rows : List Row) : List Row :=
  rows.filter (fun r => decide (pyStrip r.nationality ≠ "Saudi Arabia"))

/-! ### QAA report (`process_qaa_report`, app.py lines 721-967, detailed mode)

We model the record-filtering and error control flow of the detailed mode;
the workbook-writing mechanics are out of scope (spec section 1). -/

/-- The college/year/degree/gender stage of `process_qaa_report`
(app.py lines 733-751). -/
def qaaBase (ds : Dataset) (colleges years : List String) (degree gender : String) :
    List Row :=
  genderFilter (degreeFilter (collegeYearFilter ds.rows colleges years) degree) gender

/-- Error message produced when the pandas `KeyError` for the missing
`Nationality` column is caught by the `except` clause of
`process_qaa_report` (Python renders the missing key in quotes). -/
def qaaKeyErrorMsg : String := "Error generating QAA report: KeyError Nationality"

/-- The nationality stage of `process_qaa_report` (app.py lines 753-757).
The code indexes `filtered_df["Nationality"]` without checking that the
column exists, so a dataset without the column raises a `KeyError`,
which the surrounding `try` turns into an error response. -/
def qaaFilteredRows (ds : Dataset) (colleges years : List String)
    (degree gender nat : String) : Except String (List Row) :=
  let base := qaaBase ds colleges years degree gender
  if nat ≠ "" ∧ pyLower nat = "saudi" then
    if ds.hasNationality then .ok (saudiKeep base) else .error qaaKeyErrorMsg
  else if nat ≠ "" ∧ pyLower nat = "non-saudi" then
    if ds.hasNationality then .ok (nonSaudiKeep base) else .error qaaKeyErrorMsg
  else .ok base

/-- The filter-result-empty error message (app.py lines 760, 1237). -/
def noMatchingMsg : String := "No matching data found for the given filters."

/-- Filtering and empty-check control flow of `process_qaa_report`
(detailed mode): an empty filtered set yields the distinct
"no matching data" error (app.py lines 759-760). -/
def process_qaa_report (ds : Dataset) (colleges years : List String)
    (degree gender nat : String) : Except String (List Row) :=
  match qaaFilteredRows ds colleges years degree gender nat with
  | .error e => .error e
  | .ok filtered => if filtered.isEmpty then .error noMatchingMsg else .ok filtered

/-! ### Alumni list (`process_alumni_list`, app.py lines 1201-1287) -/

/-- Error message for the uncaught-`KeyError` path of `process_alumni_list`. -/
def alumniKeyErrorMsg : String := "Error generating alumni list: KeyError Nationality"

/-- Filter stage of `process_alumni_list` (app.py lines 1210-1234):
college, year, degree, gender, nationality, then status membership
(statuses on both sides are normalised with `clean_status`). -/
def alumniFilteredRows (ds : Dataset) (colleges years allowedStatuses : List String)
    (gender nat degree : String) : Except String (List Row) :=
  let base := genderFilter (degreeFilter (collegeYearFilter ds.rows colleges years) degree)
    gender
  let afterNat : Except String (List Row) :=
    if nat ≠ "" ∧ pyLower nat ≠ "all" then
      if pyLower nat = "saudi" then
        if ds.hasNationality then .ok (saudiKeep base) else .error alumniKeyErrorMsg
      else if pyLower nat = "non-saudi" then
        if ds.hasNationality then .ok (nonSaudiKeep base) else .error alumniKeyErrorMsg
      else .ok base
    else .ok base
  afterNat.map (fun l =>
    l.filter (fun r =>
      decide (clean_status r.currentStatus ∈ allowedStatuses.map clean_status)))

/-- Filtering and empty-check control flow of `process_alumni_list`
(app.py lines 1236-1237). -/
def process_alumni_list (ds : Dataset) (colleges years allowedStatuses : List String)
    (gender nat degree : String) : Except String (List Row) :=
  match alumniFilteredRows ds colleges years allowedStatuses gender nat degree with
  | .error e => .error e
  | .ok filtered => if filtered.isEmpty then .error noMatchingMsg else .ok filtered

/-! ### Workplace statistics (`get_workplace_statistics`, app.py lines 326-409,
and `process_workplace_report`, lines 1289-1391) -/

/-- The filter mask of `get_workplace_statistics` (app.py lines 331-349):
college, year, degree, gender, and nationality — but only the "saudi"
option is implemented, and only when the `Nationality` column exists
(otherwise a console warning is printed and the filter is skipped). -/
def wpFilteredRows (ds : Dataset) (colleges years : List String)
    (degree gender nat : String) : List Row :=
  let base := genderFilter (degreeFilter (collegeYearFilter ds.rows colleges years) degree)
    gender
  if nat ≠ "" ∧ pyLower nat = "saudi" then
    if ds.hasNationality then saudiKeep base else base
  else base

/-- A record counts as an "empty" workplace entry when its normalised
workplace starts with `"EMPTY"` (app.py line 355). -/
def isEmptyWorkplace (r : Row) : Bool :=
  sStarts (normalize_company_name r.workplace) "EMPTY"

/-- The scalar counters of the statistics dict returned by
`get_workplace_statistics` (app.py lines 397-409).  The frequency tables
(top employers, empty-category counts, position/nationality/industry/
employment-type distributions) are not modelled: no claim refers to them. -/
structure WorkplaceStats where
  total_alumni : Nat
  valid_entries : Nat
  empty_entries : Nat
  high_positions_count : Nat
deriving DecidableEq

def get_workplace_statistics (ds : Dataset) (colleges years : List String)
    (degree gender nat : String) : WorkplaceStats :=
  let filtered := wpFilteredRows ds colleges years degree gender nat
  { total_alumni := filtered.length
  , valid_entries := (filtered.filter (fun r => !isEmptyWorkplace r)).length
  , empty_entries := (filtered.filter (fun r => isEmptyWorkplace r)).length
  , high_positions_count :=
      (filtered.filter (fun r => (is_high_position r.position).isSome)).length }

/-- `process_workplace_report` (app.py lines 1289-1391): computes the
statistics and writes the workbook.  Unlike the QAA and alumni-list paths
it performs no empty-result check, so it always succeeds. -/
def process_workplace_report (ds : Dataset) (colleges years : List String)
    (degree gender nat : String) : Except String WorkplaceStats :=
  .ok (get_workplace_statistics ds colleges years degree gender nat)

/-! ### Cross-tab (detailed-mode) aggregation (app.py lines 784-932)

`filtered_df.groupby([group_col, "Current Status"]).size().unstack(fill_value=0)`
followed by the employment-stats columns.  The grouping key is either the
raw `Major` column or the formatted `Major - DegreeType - College` string;
we parameterise over the key function.  `df["Current Status"]` has been
normalised with `clean_status` beforehand (app.py line 730). -/

/-- The status of a row as the aggregation sees it (app.py line 730). -/
def rowStatus (r : Row) : String := clean_status r.currentStatus

/-- `Degree Type` derived column (app.py lines 773-775). -/
def degreeType (r : Row) : String :=
  if sStarts (pyStrip r.studentId) "G" then "Masters" else "Bachelors"

/-- `MajorFormatted` derived column (app.py line 776). -/
def majorFormatted (r : Row) : String :=
  pyStrip r.major ++ " - " ++ degreeType r ++ " - " ++ pyStrip r.college

/-- One cell of the status cross-tab: the number of filtered records in
group `k` with (cleaned) status `s`. -/
def countKS (rows : List Row) (key : Row → String) (k s : String) : Nat :=
  (rows.filter (fun r => decide (key r = k ∧ rowStatus r = s))).length

/-- The `Total` column: row sum over every status column = group size. -/
def rowTotal (rows : List Row) (key : Row → String) (k : String) : Nat :=
  (rows.filter (fun r => decide (key r = k))).length

/-- The employed-equivalent status bucket (app.py lines 795-804). -/
def employedStatuses : List String :=
  ["Employed", "Employed - add to list", "Business owner", "Training",
   "Do not contact", "Others", "Left the country", "Passed away", "New graduate"]

/-- `Employed` column: the sum of the nine employed-equivalent status counts. -/
def employedCount (rows : List Row) (key : Row → String) (k : String) : Nat :=
  (employedStatuses.map (fun s => countKS rows key k s)).sum

def unemployedCount (rows : List Row) (key : Row → String) (k : String) : Nat :=
  countKS rows key k "Unemployed"

def studyingCount (rows : List Row) (key : Row → String) (k : String) : Nat :=
  countKS rows key k "Studying"

/-- The group index of the cross-tab (distinct key values). -/
def groupKeys (rows : List Row) (key : Row → String) : List String :=
  (rows.map key).dedup

/-- The distinct status values = the status columns of the unstacked frame. -/
def statusCols (rows : List Row) : List String :=
  (rows.map rowStatus).dedup

/-- `overall_total = grouped["Total"].sum()` (app.py line 791). -/
def overallTotal (rows : List Row) (key : Row → String) : Nat :=
  ((groupKeys rows key).map (fun k => rowTotal rows key k)).sum

/-- Round `num / den` (for `den ≠ 0`) to the nearest integer with ties to
even — the rounding mode of numpy/pandas `.round`. -/
def roundHalfEvenDiv (num den : Nat) : Nat :=
  let f := num / den
  let r := 2 * (num % den)
  if r < den then f
  else if den < r then f + 1
  else if f % 2 = 0 then f else f + 1

/-- `(count / overall_total * 100).fillna(0).round(2)`: the percentage of
`n` out of `T` rounded to two decimals, i.e. the exact rational
`roundHalfEven(n / T * 10000) / 100` (the pandas pipeline rounds the
float64 value; we model the arithmetic exactly).  The `T = 0` guard models
`fillna(0)`; it is only reachable with `n = 0` because an empty filtered
set is rejected before aggregation. -/
def pctOf (n T : Nat) : ℚ :=
  if T = 0 then 0 else (roundHalfEvenDiv (10000 * n) T : ℚ) / 100

def employedPctOf (rows : List Row) (key : Row → String) (k : String) : ℚ :=
  pctOf (employedCount rows key k) (overallTotal rows key)

def unemployedPctOf (rows : List Row) (key : Row → String) (k : String) : ℚ :=
  pctOf (unemployedCount rows key k) (overallTotal rows key)

def studyingPctOf (rows : List Row) (key : Row → String) (k : String) : ℚ :=
  pctOf (studyingCount rows key k) (overallTotal rows key)

/-- One row of the final cross-tab report: the status count columns (in
`statusCols` order), `Total`, and the six employment-stats columns. -/
structure CrossRow where
  counts : List Nat
  total : Nat
  employed : Nat
  unemployed : Nat
  studying : Nat
  employedPct : ℚ
  unemployedPct : ℚ
  studyingPct : ℚ
deriving DecidableEq

/-- The data row of the report for group `k`. -/
def crossRow (rows : List Row) (key : Row → String) (k : String) : CrossRow :=
  { counts := (statusCols rows).map (fun s => countKS rows key k s)
  , total := rowTotal rows key k
  , employed := employedCount rows key k
  , unemployed := unemployedCount rows key k
  , studying := studyingCount rows key k
  , employedPct := employedPctOf rows key k
  , unemployedPct := unemployedPctOf rows key k
  , studyingPct := studyingPctOf rows key k }

/-- All data rows of the report, one per group key. -/
def dataRows (rows : List Row) (key : Row → String) : List CrossRow :=
  (groupKeys rows key).map (crossRow rows key)

/-- The synthetic `"Overall Total"` row:
`summary_row = final_report.sum(axis=0)` (app.py lines 818-820) — every
column, including the already-rounded percentage columns, is summed over
the data rows (nothing is recomputed). -/
def overallRow (rows : List Row) (key : Row → String) : CrossRow :=
  { counts := (statusCols rows).map
      (fun s => ((groupKeys rows key).map (fun k => countKS rows key k s)).sum)
  , total := ((groupKeys rows key).map (fun k => rowTotal rows key k)).sum
  , employed := ((groupKeys rows key).map (fun k => employedCount rows key k)).sum
  , unemployed := ((groupKeys rows key).map (fun k => unemployedCount rows key k)).sum
  , studying := ((groupKeys rows key).map (fun k => studyingCount rows key k)).sum
  , employedPct := ((groupKeys rows key).map (fun k => employedPctOf rows key k)).sum
  , unemployedPct := ((groupKeys rows key).map (fun k => unemployedPctOf rows key k)).sum
  , studyingPct := ((groupKeys rows key).map (fun k => studyingPctOf rows key k)).sum }

/-! ### Banner roster diff (`process_banner_integration`, app.py lines 1393-1562) -/

/-- A Banner roster row (only the student identifier matters to the diff
count; the mapped fields are copied verbatim into the new record). -/
structure BannerRow where
  studentId : String
deriving DecidableEq

/-- An Alumni roster row as the diff sees it. -/
structure AlumniRow where
  studentId : String
deriving DecidableEq

/-- `banner_df["Student ID"].astype(str).str.strip()` as a list (the code
builds a `set` from it; we realise the set as the dedup of this list). -/
def bannerIds (banner : List BannerRow) : List String :=
  banner.map (fun r => pyStrip r.studentId)

def alumniIds (alumni : List AlumniRow) : List String :=
  alumni.map (fun r => pyStrip r.studentId)

/-- `new_student_ids = banner_student_ids - alumni_student_ids`
(set difference, app.py line 1423), realised as a duplicate-free list. -/
def newStudentIds (banner : List BannerRow) (alumni : List AlumniRow) : List String :=
  (bannerIds banner).dedup.filter (fun i => decide (i ∉ alumniIds alumni))

/-- `new_students_df = banner_df[banner_df["Student ID"].isin(new_student_ids)]`
(app.py line 1436): every Banner *row* whose identifier is new, so a
duplicated Banner identifier contributes one record per occurrence. -/
def newStudentsRows (banner : List BannerRow) (alumni : List AlumniRow) :
    List BannerRow :=
  banner.filter (fun r => decide (pyStrip r.studentId ∈ newStudentIds banner alumni))

/-- The `"new_records"` count of the response (app.py lines 1425-1433 for the
early exit, line 1554 otherwise): `len(new_alumni_records)`, one record per
row of `new_students_df`. -/
def newRecordsCount (banner : List BannerRow) (alumni : List AlumniRow) : Nat :=
  if (newStudentIds banner alumni).isEmpty then 0
  else (newStudentsRows banner alumni).length

/-- The cardinality of the identifier set difference `banner_ids - alumni_ids`. -/
def setDiffCard (banner : List BannerRow) (alumni : List AlumniRow) : Nat :=
  (newStudentIds banner alumni).length

/-- Did a report call end in an error response? -/
def isErrorResult {α : Type} : Except String α → Bool
  | .error _ => true
  | .ok _ => false

/-- The row list carried by a successful filter result (empty on error). -/
def okRows : Except String (List Row) → List Row
  | .ok l => l
  | .error _ => []

/-! ### Concrete instances used by counterexamples and witnesses -/

/-- The seven sentinel outputs of `normalize_company_name`. -/
def sentinelOutputs : List String :=
  ["EMPTY (NULL)", "EMPTY (INVALID TYPE)", "EMPTY (COMPLETELY EMPTY)",
   "EMPTY (PLACEHOLDER)", "EMPTY (CONFIDENTIAL)", "EMPTY (OTHERS)",
   "EMPTY (NOT WORKING)"]

/-- An employed business-college graduate. -/
def rowEmployedEx : Row :=
  { studentId := "1001", college := "College of Business",
    gradYear := "2014-2015 FALL", gender := "Male",
    nationality := "Saudi Arabia", currentStatus := "Employed",
    major := "Finance", workplace := .str "SNB", position := .str "Analyst" }

/-- An unemployed graduate of the same major. -/
def rowUnemployedEx : Row :=
  { studentId := "1002", college := "College of Business",
    gradYear := "2014-2015 FALL", gender := "Female",
    nationality := "India", currentStatus := "Unemployed",
    major := "Finance", workplace := .str "", position := .str "" }

/-- The two-record filtered set used by the cross-tab counterexample. -/
def qaaRowsEx : List Row := [rowEmployedEx, rowUnemployedEx]

/-- Grouping by the raw `Major` column. -/
def keyMajor : Row → String := fun r => r.major

/-- A one-record dataset that has the `Nationality` column. -/
def dsWithNatEx : Dataset := { rows := [rowEmployedEx], hasNationality := true }

/-- A one-record dataset without the `Nationality` column. -/
def dsNoNatEx : Dataset := { rows := [rowEmployedEx], hasNationality := false }

/-- An empty dataset (no roster rows). -/
def dsEmptyEx : Dataset := { rows := [], hasNationality := true }

/-- A Banner upload in which student `1001` appears twice. -/
def bannerDupEx : List BannerRow := [{ studentId := "1001" }, { studentId := "1001" }]

/-- A Banner upload with two distinct students. -/
def bannerNodupEx : List BannerRow := [{ studentId := "1001" }, { studentId := "1002" }]

/-- An Alumni roster containing only student `1002`. -/
def alumniEx : List AlumniRow := [{ studentId := "1002" }]

/-! ### Counting lemmas -/

section CountingLemmas

variable {α β : Type}

/-- Splitting a list by a Boolean predicate partitions its length. -/
theorem lengthFilterNotAdd (p : α → Bool) (l : List α) :
    (l.filter (fun a => !p a)).length + (l.filter p).length = l.length := by
  induction l with
  | nil => rfl
  | cons a t ih =>
    cases h : p a <;> simp [List.filter_cons, h] <;> omega

/-- Filtering on membership in `k :: K` splits, provided `k ∉ K`. -/
theorem lengthFilterMemCons [DecidableEq β] (f : α → β) (k : β) (K : List β) (hk : k ∉ K)
    (l : List α) :
    (l.filter (fun a => decide (f a ∈ k :: K))).length
      = (l.filter (fun a => decide (f a = k))).length
        + (l.filter (fun a => decide (f a ∈ K))).length := by
  induction l with
  | nil => rfl
  | cons a t ih =>
    rw [List.filter_cons, List.filter_cons, List.filter_cons]
    by_cases h1 : f a = k
    · have h2 : f a ∉ K := fun hm => hk (h1 ▸ hm)
      rw [if_pos (by simp [h1]), if_pos (by simp [h1]), if_neg (by simp [h2])]
      rw [List.length_cons, List.length_cons, ih]
      omega
    · by_cases h2 : f a ∈ K
      · rw [if_pos (by simp [h2]), if_neg (by simp [h1]), if_pos (by simp [h2])]
        rw [List.length_cons, List.length_cons, ih]
        omega
      · rw [if_neg (by simp [h1, h2]), if_neg (by simp [h1]), if_neg (by simp [h2])]
        exact ih

/-- The per-key counts over a duplicate-free key list `K` sum to the count of
elements whose key lies in `K`. -/
theorem sumCounts [DecidableEq β] (f : α → β) (l : List α) :
    ∀ K : List β, K.Nodup →
      ((K.map (fun k => (l.filter (fun a => decide (f a = k))).length)).sum
        = (l.filter (fun a => decide (f a ∈ K))).length)
  | [], _ => by simp
  | k :: K, hK => by
    have hk : k ∉ K := (List.nodup_cons.mp hK).1
    have hK' : K.Nodup := (List.nodup_cons.mp hK).2
    simp only [List.map_cons, List.sum_cons, sumCounts f l K hK',
      lengthFilterMemCons f k K hk l]

/-- When `K` covers every key of `l`, the per-key counts sum to `l.length`. -/
theorem sumCountsFull [DecidableEq β] (f : α → β) (l : List α) (K : List β) (hK : K.Nodup)
    (hcov : ∀ a ∈ l, f a ∈ K) :
    ((K.map (fun k => (l.filter (fun a => decide (f a = k))).length)).sum = l.length) := by
  rw [sumCounts f l K hK]
  have : l.filter (fun a => decide (f a ∈ K)) = l := by
    apply List.filter_eq_self.mpr
    intro a ha
    simpa using hcov a ha
  rw [this]

/-- Filtering a mapped list is counting a composed filter. -/
theorem lengthFilterMap (f : α → β) (p : β → Bool) (l : List α) :
    ((l.map f).filter p).length = (l.filter (fun a => p (f a))).length := by
  induction l with
  | nil => rfl
  | cons a t ih =>
    cases h : p (f a) <;> simp [List.filter_cons, h, ih]

/-- A conjunctive filter is two successive filters. -/
theorem filterAndComm (p q : α → Prop) [DecidablePred p] [DecidablePred q]
    (l : List α) :
    l.filter (fun a => decide (p a ∧ q a))
      = (l.filter (fun a => decide (q a))).filter (fun a => decide (p a)) := by
  induction l with
  | nil => rfl
  | cons a t ih =>
    by_cases hp : p a <;> by_cases hq : q a <;>
      simp [List.filter_cons, hp, hq, ih]

end CountingLemmas

/-! ### Cross-tab helper lemmas -/

/-- A cross-tab cell count, with the group filter applied first. -/
theorem countKS_keyFirst (rows : List Row) (key : Row → String) (k s : String) :
    countKS rows key k s
      = ((rows.filter (fun r => decide (key r = k))).filter
          (fun r => decide (rowStatus r = s))).length := by
  unfold countKS
  rw [show rows.filter (fun r => decide (key r = k ∧ rowStatus r = s))
      = rows.filter (fun r => decide (rowStatus r = s ∧ key r = k)) from
      List.filter_congr (fun r _ => decide_eq_decide.mpr and_comm)]
  rw [filterAndComm (fun r => rowStatus r = s) (fun r => key r = k) rows]

/-- A cross-tab cell count, with the status filter applied first. -/
theorem countKS_statusFirst (rows : List Row) (key : Row → String) (k s : String) :
    countKS rows key k s
      = ((rows.filter (fun r => decide (rowStatus r = s))).filter
          (fun r => decide (key r = k))).length := by
  unfold countKS
  rw [filterAndComm (fun r => key r = k) (fun r => rowStatus r = s) rows]

/-- The `Employed` column of a group counts the group's records whose
status lies in the employed-equivalent bucket. -/
theorem employedCount_eq (rows : List Row) (key : Row → String) (k : String) :
    employedCount rows key k
      = ((rows.filter (fun r => decide (rowStatus r ∈ employedStatuses))).filter
          (fun r => decide (key r = k))).length := by
  unfold employedCount
  simp only [countKS_keyFirst]
  rw [sumCounts rowStatus (rows.filter (fun r => decide (key r = k)))
      employedStatuses (by decide)]
  rw [← filterAndComm (fun r => rowStatus r ∈ employedStatuses)
      (fun r => key r = k) rows]
  rw [show rows.filter (fun r => decide (rowStatus r ∈ employedStatuses ∧ key r = k))
      = rows.filter (fun r => decide (key r = k ∧ rowStatus r ∈ employedStatuses)) from
      List.filter_congr (fun r _ => decide_eq_decide.mpr and_comm)]
  rw [filterAndComm (fun r => key r = k)
      (fun r => rowStatus r ∈ employedStatuses) rows]

/-- Every row of `rows` has its key in `groupKeys rows key`. -/
theorem key_mem_groupKeys (rows : List Row) (key : Row → String) {r : Row}
    (hr : r ∈ rows) : key r ∈ groupKeys rows key :=
  List.mem_dedup.mpr (List.mem_map_of_mem key hr)

/-- Summing one status column over all group keys counts all filtered
records with that status. -/
theorem statusCount_total (rows : List Row) (key : Row → String) (s : String) :
    ((groupKeys rows key).map (fun k => countKS rows key k s)).sum
      = (rows.filter (fun r => decide (rowStatus r = s))).length := by
  simp only [countKS_statusFirst]
  exact sumCountsFull key (rows.filter (fun r => decide (rowStatus r = s)))
    (groupKeys rows key) (List.nodup_dedup _)
    (fun a ha => key_mem_groupKeys rows key (List.mem_of_mem_filter ha))

/-- Summing the `Employed` column over all group keys counts all filtered
records with an employed-equivalent status. -/
theorem employedCount_total (rows : List Row) (key : Row → String) :
    ((groupKeys rows key).map (fun k => employedCount rows key k)).sum
      = (rows.filter (fun r => decide (rowStatus r ∈ employedStatuses))).length := by
  simp only [employedCount_eq]
  exact sumCountsFull key
    (rows.filter (fun r => decide (rowStatus r ∈ employedStatuses)))
    (groupKeys rows key) (List.nodup_dedup _)
    (fun a ha => key_mem_groupKeys rows key (List.mem_of_mem_filter ha))

/-- Summing the `Total` column over all group keys counts every record. -/
theorem overallTotal_eq_length (rows : List Row) (key : Row → String) :
    overallTotal rows key = rows.length := by
  unfold overallTotal rowTotal
  exact sumCountsFull key rows (groupKeys rows key) (List.nodup_dedup _)
    (fun a ha => key_mem_groupKeys rows key ha)

/-! ## Claim C2 — the synthetic "Overall Total" row -/

/-- C2 (counterexample): with one `Employed` and one `Unemployed` record in
the same major, the grand total is 2 > 0, yet the Overall-Total row's
`Employed Percentage` is 50, not 100 — the summary row sums the per-row
rounded percentages instead of recomputing them. -/
theorem c2_counterexample :
    0 < overallTotal qaaRowsEx keyMajor ∧
    (overallRow qaaRowsEx keyMajor).employedPct = 50 ∧
    ((50 : ℚ) ≠ 100) := by
  refine ⟨by decide, ?_, by norm_num⟩
  have h1 : (overallRow qaaRowsEx keyMajor).employedPct
      = ((groupKeys qaaRowsEx keyMajor).map
          (fun k => employedPctOf qaaRowsEx keyMajor k)).sum := rfl
  have h2 : groupKeys qaaRowsEx keyMajor = ["Finance"] := by decide
  have h3 : employedCount qaaRowsEx keyMajor "Finance" = 1 := by decide
  have h4 : overallTotal qaaRowsEx keyMajor = 2 := by decide
  have h5 : roundHalfEvenDiv (10000 * 1) 2 = 5000 := by decide
  rw [h1, h2]
  simp only [List.map_cons, List.map_nil, List.sum_cons, List.sum_nil,
    employedPctOf, h3, h4, pctOf, h5]
  norm_num

/-- C2 (amended): the appended "Overall Total" row is the column-wise sum
of the data rows.  Its count columns therefore equal the true totals over
the filtered records (`Total` = record count, `Employed` = employed-bucket
count, and likewise per status), but each percentage column equals the
*sum of the rounded per-row percentages*, which need not be 100% even when
the grand total is positive. -/
theorem c2_overall_total_row (rows : List Row) (key : Row → String) :
    (overallRow rows key).total = rows.length
    ∧ (overallRow rows key).employed
        = (rows.filter (fun r => decide (rowStatus r ∈ employedStatuses))).length
    ∧ (overallRow rows key).unemployed
        = (rows.filter (fun r => decide (rowStatus r = "Unemployed"))).length
    ∧ (overallRow rows key).studying
        = (rows.filter (fun r => decide (rowStatus r = "Studying"))).length
    ∧ (overallRow rows key).counts
        = (statusCols rows).map
            (fun s => (rows.filter (fun r => decide (rowStatus r = s))).length)
    ∧ (overallRow rows key).employedPct
        = ((dataRows rows key).map (fun cr => cr.employedPct)).sum
    ∧ (overallRow rows key).unemployedPct
        = ((dataRows rows key).map (fun cr => cr.unemployedPct)).sum
    ∧ (overallRow rows key).studyingPct
        = ((dataRows rows key).map (fun cr => cr.studyingPct)).sum := by
  refine ⟨?_, ?_, ?_, ?_, ?_, ?_, ?_, ?_⟩
  · exact overallTotal_eq_length rows key
  · exact employedCount_total rows key
  · exact statusCount_total rows key "Unemployed"
  · exact statusCount_total rows key "Studying"
  · simp only [overallRow]
    exact List.map_congr_left (fun s _ => statusCount_total rows key s)
  · simp only [overallRow, dataRows, List.map_map]
    rfl
  · simp only [overallRow, dataRows, List.map_map]
    rfl
  · simp only [overallRow, dataRows, List.map_map]
    rfl

/-! ## Claim C3 — per-row bucket inequality -/

/-- C3: in every cross-tab row, `Employed + Unemployed + Studying ≤ Total`:
the three buckets cover eleven pairwise-distinct status values, so their
combined count cannot exceed the group size. -/
theorem c3_buckets_le_total (rows : List Row) (key : Row → String) (k : String) :
    employedCount rows key k + unemployedCount rows key k + studyingCount rows key k
      ≤ rowTotal rows key k := by
  have hsum : employedCount rows key k + unemployedCount rows key k
        + studyingCount rows key k
      = (((employedStatuses ++ ["Unemployed", "Studying"]).map
          (fun s => ((rows.filter (fun r => decide (key r = k))).filter
            (fun r => decide (rowStatus r = s))).length)).sum) := by
    simp only [employedCount, unemployedCount, studyingCount, countKS_keyFirst,
      List.map_append, List.sum_append, List.map_cons, List.sum_cons,
      List.map_nil, List.sum_nil]
    omega
  rw [hsum, sumCounts rowStatus (rows.filter (fun r => decide (key r = k)))
      (employedStatuses ++ ["Unemployed", "Studying"]) (by decide)]
  unfold rowTotal
  exact List.length_filter_le _ _

/-! ## Claim C1 — idempotence of company-name normalization -/

/-- C1 (counterexample): normalization is *not* idempotent.  `"BCG"`
normalizes to the alias expansion `"BOSTON CONSULTING GROUP"`, but
normalizing that output again strips the suffix substrings `" CO"` (from
`" CONSULTING"`) and `" GROUP"`, yielding `"BOSTONNSULTING"`. -/
theorem c1_counterexample :
    normalize_company_name (.str (normalize_company_name (.str "BCG")))
      ≠ normalize_company_name (.str "BCG") := by
  decide

/-- C1 (amended): normalization is idempotent on every input whose output
is one of the `EMPTY (...)` sentinel values; it is not idempotent in
general (see the counterexample at `"BCG"`). -/
theorem c1_idempotent_on_sentinels (x : Cell)
    (h : normalize_company_name x ∈ sentinelOutputs) :
    normalize_company_name (.str (normalize_company_name x))
      = normalize_company_name x := by
  simp only [sentinelOutputs, List.mem_cons, List.not_mem_nil, or_false] at h
  rcases h with h1 | h1 | h1 | h1 | h1 | h1 | h1 <;> rw [h1] <;> decide

/-- C1 witness: the null input lands in a sentinel, and there the
normalizer is a fixed point of itself. -/
theorem c1_witness :
    normalize_company_name Cell.null ∈ sentinelOutputs ∧
    normalize_company_name (.str (normalize_company_name Cell.null))
      = normalize_company_name Cell.null :=
  ⟨by decide, c1_idempotent_on_sentinels Cell.null (by decide)⟩

/-! ## Claim C7 — sentinel returned for missing / non-string / blank input -/

/-- C7 (counterexample): a non-string input yields `"EMPTY (INVALID TYPE)"`
and a blank input yields `"EMPTY (COMPLETELY EMPTY)"`, neither of which is
the `"EMPTY (NULL)"` the claim demands. -/
theorem c7_counterexample :
    normalize_company_name Cell.nonstring = "EMPTY (INVALID TYPE)" ∧
    normalize_company_name (.str "   ") = "EMPTY (COMPLETELY EMPTY)" ∧
    ("EMPTY (INVALID TYPE)" : String) ≠ "EMPTY (NULL)" ∧
    ("EMPTY (COMPLETELY EMPTY)" : String) ≠ "EMPTY (NULL)" := by
  decide

/-- C7 (amended): missing input yields `"EMPTY (NULL)"`, non-string input
yields `"EMPTY (INVALID TYPE)"`, and every blank (empty-after-trim) string
yields `"EMPTY (COMPLETELY EMPTY)"`. -/
theorem c7_empty_value_sentinels :
    normalize_company_name Cell.null = "EMPTY (NULL)" ∧
    normalize_company_name Cell.nonstring = "EMPTY (INVALID TYPE)" ∧
    ∀ s : String, pyStrip s = "" →
      normalize_company_name (.str s) = "EMPTY (COMPLETELY EMPTY)" := by
  refine ⟨rfl, rfl, ?_⟩
  intro s h
  simp only [normalize_company_name, normStr, h]
  decide

/-- C7 witness: the all-blank string is empty after trimming and maps to
the `COMPLETELY EMPTY` sentinel. -/
theorem c7_witness :
    pyStrip "   " = "" ∧
    normalize_company_name (.str "   ") = "EMPTY (COMPLETELY EMPTY)" :=
  ⟨by decide, c7_empty_value_sentinels.2.2 "   " (by decide)⟩

/-! ## Claim C5 — contextual-word requirement for HEAD / CHIEF / OWNER -/

/-- C5 (counterexample): `"MY CHIEF"` and `"MY OWNER"` contain no
contextual word, are not exact mapping keys, and their only word-boundary
matches are `CHIEF` resp. `OWNER` — yet the classifier accepts both.  The
claim predicts `none` for each. -/
theorem c5_counterexample :
    is_high_position (.str "MY CHIEF") = some "CHIEF" ∧
    hasLeadershipContext (pyUpper (pyStrip "MY CHIEF")) = false ∧
    is_high_position (.str "MY OWNER") = some "OWNER" ∧
    hasLeadershipContext (pyUpper (pyStrip "MY OWNER")) = false := by
  decide

/-- C5 (amended): in the keyword scan, the contextual-word requirement is
guarded by `len(keyword) < 5` and therefore applies only to `HEAD`; a
word-boundary match of `CHIEF` or `OWNER` (both of length 5) is accepted
immediately, without any contextual word. -/
theorem c5_context_guard_only_applies_to_head :
    (∀ position rest, findHigh (("CHIEF", "CHIEF") :: rest) position =
        if wordMatch "CHIEF" position then some "CHIEF" else findHigh rest position)
    ∧ (∀ position rest, findHigh (("OWNER", "OWNER") :: rest) position =
        if wordMatch "OWNER" position then some "OWNER" else findHigh rest position)
    ∧ (∀ position rest, findHigh (("HEAD", "HEAD") :: rest) position =
        if wordMatch "HEAD" position then
          (if hasLeadershipContext position then some "HEAD"
           else findHigh rest position)
        else findHigh rest position) := by
  refine ⟨?_, ?_, ?_⟩ <;> intro position rest
  · by_cases h : wordMatch "CHIEF" position = true
    · simp only [findHigh]
      rw [if_pos h, if_neg (by decide), if_pos h]
    · simp only [findHigh]
      rw [if_neg h, if_neg h]
  · by_cases h : wordMatch "OWNER" position = true
    · simp only [findHigh]
      rw [if_pos h, if_neg (by decide), if_pos h]
    · simp only [findHigh]
      rw [if_neg h, if_neg h]
  · by_cases h : wordMatch "HEAD" position = true
    · simp only [findHigh]
      rw [if_pos h, if_pos (by decide), if_pos h]
    · simp only [findHigh]
      rw [if_neg h, if_neg h]

/-! ## Claim C6 — banner diff count vs. identifier set difference -/

/-- C6 (counterexample): with student `1001` listed twice in Banner and an
empty Alumni roster, the identifier set difference has one element but two
new records are reported. -/
theorem c6_counterexample :
    newRecordsCount bannerDupEx ([] : List AlumniRow) = 2 ∧
    setDiffCard bannerDupEx ([] : List AlumniRow) = 1 := by
  decide

/-- C6 (amended): the reported `new_records` count equals the number of
Banner *rows* whose (trimmed) identifier is absent from the Alumni roster;
it equals the cardinality of the identifier set difference exactly when the
Banner identifiers are free of duplicates. -/
theorem c6_new_records_counts_rows (banner : List BannerRow)
    (alumni : List AlumniRow) :
    newRecordsCount banner alumni
      = (banner.filter
          (fun r => decide (pyStrip r.studentId ∉ alumniIds alumni))).length
    ∧ ((bannerIds banner).Nodup →
        newRecordsCount banner alumni = setDiffCard banner alumni) := by
  have hrows : newStudentsRows banner alumni
      = banner.filter (fun r => decide (pyStrip r.studentId ∉ alumniIds alumni)) := by
    unfold newStudentsRows
    apply List.filter_congr
    intro r hr
    apply decide_eq_decide.mpr
    unfold newStudentIds
    constructor
    · intro hm
      have := (List.mem_filter.mp hm).2
      simpa using this
    · intro hn
      apply List.mem_filter.mpr
      refine ⟨List.mem_dedup.mpr ?_, by simpa using hn⟩
      exact List.mem_map_of_mem _ hr
  have hcount : newRecordsCount banner alumni
      = (banner.filter
          (fun r => decide (pyStrip r.studentId ∉ alumniIds alumni))).length := by
    unfold newRecordsCount
    by_cases he : (newStudentIds banner alumni).isEmpty = true
    · rw [if_pos he, ← hrows]
      have hnil : newStudentIds banner alumni = [] := by
        simpa [List.isEmpty_iff] using he
      simp [newStudentsRows, hnil]
    · rw [if_neg he, hrows]
  refine ⟨hcount, fun hnd => ?_⟩
  rw [hcount]
  unfold setDiffCard newStudentIds
  rw [List.dedup_eq_self.mpr hnd]
  unfold bannerIds
  rw [lengthFilterMap]

/-- C6 witness: with duplicate-free Banner identifiers the reported count
matches the set-difference cardinality. -/
theorem c6_witness :
    (bannerIds bannerNodupEx).Nodup ∧
    newRecordsCount bannerNodupEx alumniEx = setDiffCard bannerNodupEx alumniEx :=
  ⟨by decide, (c6_new_records_counts_rows bannerNodupEx alumniEx).2 (by decide)⟩

/-! ## Claim C10 — workplace statistics partition invariant -/

/-- C10: classifying each filtered record by whether its normalized
workplace starts with `"EMPTY"` partitions the filtered set, so
`valid_entries + empty_entries = total_alumni` for every dataset and every
filter selection. -/
theorem c10_valid_plus_empty_eq_total (ds : Dataset) (colleges years : List String)
    (degree gender nat : String) :
    (get_workplace_statistics ds colleges years degree gender nat).valid_entries
      + (get_workplace_statistics ds colleges years degree gender nat).empty_entries
      = (get_workplace_statistics ds colleges years degree gender nat).total_alumni := by
  simp only [get_workplace_statistics]
  exact lengthFilterNotAdd isEmptyWorkplace _

/-! ## Claim C4 — empty filter result handling -/

/-- C4 (counterexample): a workplace-statistics request whose filters match
zero records (empty college selection against a non-empty dataset) does not
return the "no matching data" error — it succeeds with an empty report. -/
theorem c4_counterexample :
    isErrorResult (process_workplace_report dsWithNatEx [] [] "all" "all" "") = false ∧
    (get_workplace_statistics dsWithNatEx [] [] "all" "all" "").total_alumni = 0 := by
  decide

/-- C4 (amended): the QAA report and the alumni list return the distinct
"no matching data" error whenever their filters match zero records, but the
workplace-statistics report performs no empty-result check and never
returns an error. -/
theorem c4_empty_filter_behaviour :
    (∀ ds colleges years degree gender nat,
      qaaFilteredRows ds colleges years degree gender nat = .ok [] →
        process_qaa_report ds colleges years degree gender nat
          = .error noMatchingMsg)
    ∧ (∀ ds colleges years allowed gender nat degree,
      alumniFilteredRows ds colleges years allowed gender nat degree = .ok [] →
        process_alumni_list ds colleges years allowed gender nat degree
          = .error noMatchingMsg)
    ∧ (∀ ds colleges years degree gender nat,
      isErrorResult (process_workplace_report ds colleges years degree gender nat)
        = false) := by
  refine ⟨?_, ?_, ?_⟩
  · intro ds colleges years degree gender nat h
    unfold process_qaa_report
    rw [h]
    rfl
  · intro ds colleges years allowed gender nat degree h
    unfold process_alumni_list
    rw [h]
    rfl
  · intro ds colleges years degree gender nat
    rfl

/-- C4 witness: on a dataset with no matching rows both guarded paths
produce the "no matching data" error. -/
theorem c4_witness :
    process_qaa_report dsEmptyEx [] [] "all" "all" "" = .error noMatchingMsg ∧
    process_alumni_list dsEmptyEx [] [] [] "all" "" "all" = .error noMatchingMsg :=
  ⟨c4_empty_filter_behaviour.1 dsEmptyEx [] [] "all" "all" "" rfl,
   c4_empty_filter_behaviour.2.1 dsEmptyEx [] [] [] "all" "" "all" rfl⟩

/-! ## Claim C8 — the "non-saudi" nationality option -/

/-- C8 (counterexample): the workplace-statistics path ignores the
`non-saudi` option entirely: a record whose trimmed nationality *is*
"Saudi Arabia" is still counted when `non-saudi` is selected. -/
theorem c8_counterexample :
    (get_workplace_statistics dsWithNatEx ["College of Business"]
        ["2014-2015 FALL"] "all" "all" "non-saudi").total_alumni = 1 ∧
    pyStrip rowEmployedEx.nationality = "Saudi Arabia" := by
  decide

/-- C8 (amended): on datasets that have the `Nationality` column, the QAA
report and the alumni list keep, under `non-saudi`, exactly the records of
the otherwise-filtered set whose trimmed nationality differs from
"Saudi Arabia"; the workplace-statistics path does not implement
`non-saudi` and treats it exactly like `all`. -/
theorem c8_non_saudi_filter (ds : Dataset) (colleges years : List String)
    (degree gender : String) (h : ds.hasNationality = true) (r : Row) :
    (r ∈ okRows (qaaFilteredRows ds colleges years degree gender "non-saudi")
      ↔ r ∈ okRows (qaaFilteredRows ds colleges years degree gender "all")
          ∧ pyStrip r.nationality ≠ "Saudi Arabia")
    ∧ (∀ allowed,
        r ∈ okRows (alumniFilteredRows ds colleges years allowed gender "non-saudi" degree)
      ↔ r ∈ okRows (alumniFilteredRows ds colleges years allowed gender "all" degree)
          ∧ pyStrip r.nationality ≠ "Saudi Arabia")
    ∧ wpFilteredRows ds colleges years degree gender "non-saudi"
        = wpFilteredRows ds colleges years degree gender "all" := by
  refine ⟨?_, ?_, ?_⟩
  · have e1 : qaaFilteredRows ds colleges years degree gender "non-saudi"
        = .ok (nonSaudiKeep (qaaBase ds colleges years degree gender)) := by
      unfold qaaFilteredRows
      rw [if_neg (by decide), if_pos (by decide), if_pos h]
    have e2 : qaaFilteredRows ds colleges years degree gender "all"
        = .ok (qaaBase ds colleges years degree gender) := by
      unfold qaaFilteredRows
      rw [if_neg (by decide), if_neg (by decide)]
    rw [e1, e2]
    simp [okRows, nonSaudiKeep, List.mem_filter]
  · intro allowed
    have e3 : alumniFilteredRows ds colleges years allowed gender "non-saudi" degree
        = .ok ((nonSaudiKeep (genderFilter (degreeFilter
            (collegeYearFilter ds.rows colleges years) degree) gender)).filter
            (fun r => decide (clean_status r.currentStatus
              ∈ allowed.map clean_status))) := by
      simp only [alumniFilteredRows]
      rw [if_pos (by decide), if_neg (by decide), if_pos (by decide), if_pos h]
      rfl
    have e4 : alumniFilteredRows ds colleges years allowed gender "all" degree
        = .ok ((genderFilter (degreeFilter
            (collegeYearFilter ds.rows colleges years) degree) gender).filter
            (fun r => decide (clean_status r.currentStatus
              ∈ allowed.map clean_status))) := by
      simp only [alumniFilteredRows]
      rw [if_neg (by decide)]
      rfl
    rw [e3, e4]
    simp only [okRows, nonSaudiKeep, List.mem_filter, decide_eq_true_eq]
    tauto
  · simp only [wpFilteredRows]
    rw [if_neg (by decide), if_neg (by decide)]

/-- C8 witness: the general characterisation instantiated on a concrete
dataset that has the nationality column. -/
theorem c8_witness :
    rowEmployedEx ∈ okRows (qaaFilteredRows dsWithNatEx ["College of Business"]
        ["2014-2015 FALL"] "all" "all" "non-saudi")
      ↔ rowEmployedEx ∈ okRows (qaaFilteredRows dsWithNatEx ["College of Business"]
          ["2014-2015 FALL"] "all" "all" "all")
        ∧ pyStrip rowEmployedEx.nationality ≠ "Saudi Arabia" :=
  (c8_non_saudi_filter dsWithNatEx ["College of Business"] ["2014-2015 FALL"]
    "all" "all" rfl rowEmployedEx).1

/-! ## Claim C9 — reports on datasets lacking the Nationality column -/

/-- C9 (counterexample): a QAA request with the `saudi` option on a dataset
without the `Nationality` column fails with a generic error (the uncaught
pandas `KeyError` surfaces through the `except` clause) — it is neither a
no-op nor a warning, and the error is not the "no matching data" one. -/
theorem c9_counterexample :
    process_qaa_report dsNoNatEx ["College of Business"] ["2014-2015 FALL"]
        "all" "all" "saudi" = .error qaaKeyErrorMsg ∧
    qaaKeyErrorMsg ≠ noMatchingMsg :=
  ⟨rfl, by decide⟩

/-- C9 (amended): when the dataset lacks the `Nationality` column, the
workplace-statistics path applies the nationality filter as a no-op (with
only a console warning for `saudi`), but the QAA report path fails the
request with a generic error for both `saudi` and `non-saudi`. -/
theorem c9_missing_nationality_column (ds : Dataset) (colleges years : List String)
    (degree gender nat : String) (h : ds.hasNationality = false) :
    wpFilteredRows ds colleges years degree gender nat
      = genderFilter (degreeFilter (collegeYearFilter ds.rows colleges years) degree)
          gender
    ∧ ((nat ≠ "" ∧ (pyLower nat = "saudi" ∨ pyLower nat = "non-saudi")) →
        process_qaa_report ds colleges years degree gender nat
          = .error qaaKeyErrorMsg) := by
  constructor
  · simp only [wpFilteredRows]
    by_cases h1 : nat ≠ "" ∧ pyLower nat = "saudi"
    · rw [if_pos h1, if_neg (by simp [h])]
    · rw [if_neg h1]
  · rintro ⟨hne, hdis⟩
    unfold process_qaa_report qaaFilteredRows
    rcases hdis with hs | hns
    · rw [if_pos ⟨hne, hs⟩, if_neg (by simp [h])]
    · have hne2 : ¬ (nat ≠ "" ∧ pyLower nat = "saudi") := by
        rintro ⟨-, hsa⟩
        rw [hns] at hsa
        exact absurd hsa (by decide)
      rw [if_neg hne2, if_pos ⟨hne, hns⟩, if_neg (by simp [h])]

/-- C9 witness: the amended behaviour at a concrete dataset without the
nationality column and the `saudi` option. -/
theorem c9_witness :
    dsNoNatEx.hasNationality = false ∧
    wpFilteredRows dsNoNatEx ["College of Business"] ["2014-2015 FALL"]
        "all" "all" "saudi"
      = genderFilter (degreeFilter (collegeYearFilter dsNoNatEx.rows
          ["College of Business"] ["2014-2015 FALL"]) "all") "all" ∧
    process_qaa_report dsNoNatEx ["College of Business"] ["2014-2015 FALL"]
        "all" "all" "saudi" = .error qaaKeyErrorMsg :=
  ⟨rfl,
   (c9_missing_nationality_column dsNoNatEx ["College of Business"]
     ["2014-2015 FALL"] "all" "all" "saudi" rfl).1,
   (c9_missing_nationality_column dsNoNatEx ["College of Business"]
     ["2014-2015 FALL"] "all" "all" "saudi" rfl).2 (by decide)⟩

end WebAlumni

/-! ### Scenario checks (spec section 8) -/

example : WebAlumni.clean_status "  EMPLOYED " = "Employed" := by decide

example : WebAlumni.clean_status "NEW GRADUATE" = "New graduate" := by decide

example : WebAlumni.is_high_position (.str "IT Director") = some "DIRECTOR" := by decide
example : WebAlumni.is_high_position (.str "Directory Administrator") = none := by decide
example : WebAlumni.is_high_position (.str "Head of Department") = some "HEAD" := by decide
example : WebAlumni.is_high_position (.str "Head Chef") = none := by decide
example : WebAlumni.is_high_position (.str "MY CHIEF") = some "CHIEF" := by decide
example : WebAlumni.is_high_position (.str "MY OWNER") = some "OWNER" := by decide
example : WebAlumni.normStr "BCG" = "BOSTON CONSULTING GROUP" := by decide
example : WebAlumni.normStr "BOSTON CONSULTING GROUP" = "BOSTONNSULTING" := by decide
example : WebAlumni.normStr " " = "EMPTY (COMPLETELY EMPTY)" := by decide
example : WebAlumni.normStr "N/A" = "EMPTY (PLACEHOLDER)" := by decide
example : WebAlumni.normStr "SNB" = "SAUDI NATIONAL BANK" := by decide
example : WebAlumni.normStr "EMPTY (NULL)" = "EMPTY (NULL)" := by decide
